import Mathlib

/-!
Verification of the pymatgen OpenBabel adaptor (`pymatgen/io/babel.py`).

The module adapts between pymatgen's `Molecule` (a list of sites, each with a
species and a 3D coordinate, plus net charge and spin multiplicity) and
OpenBabel's `OBMol` handle.  We give a shallow embedding: the adaptor's own
code (`BabelMolAdaptor.__init__`, `pymatgen_mol`, `openbabel_mol`,
`confm_search`, `from_file`, `from_string`) is translated line by line, while
the external toolkit operations (`OBMol` methods, forcefield resolution,
parsers) are modelled from the specification of their observable behavior,
each marked as such in its doc comment.  Coordinates are embedded as exact
rationals.
-/

/-- A 3D Cartesian coordinate with exact rational components. -/
structure Vec3 where
  x : ℚ
  y : ℚ
  z : ℚ
deriving DecidableEq

def Vec3.zero : Vec3 := ⟨0, 0, 0⟩

def Vec3.add (a b : Vec3) : Vec3 := ⟨a.x + b.x, a.y + b.y, a.z + b.z⟩

def Vec3.sub (a b : Vec3) : Vec3 := ⟨a.x - b.x, a.y - b.y, a.z - b.z⟩

/-- Centroid of a list of coordinates: the componentwise average.  For the
empty list the rational convention `s / 0 = 0` yields the origin. -/
def vecCentroid (l : List Vec3) : Vec3 :=
  ⟨(l.map Vec3.x).sum / l.length, (l.map Vec3.y).sum / l.length,
   (l.map Vec3.z).sum / l.length⟩

/-- Modelled from the spec: a site of a structural (pymatgen) molecule.
`species` lists the possible species occupying the site; a site is ordered
when it maps to exactly one definite species. -/
structure Site where
  species : List ℕ
  coords : Vec3
deriving DecidableEq

/-- Modelled from the spec: a site is ordered when it has exactly one
definite species. -/
def Site.is_ordered (s : Site) : Bool := s.species.length == 1

/-- The atomic number `site.specie.Z` of an ordered site: the single species
it carries. -/
def Site.specieZ (s : Site) : ℕ := s.species.headD 0

/-- Modelled from the spec: pymatgen's structural `Molecule` — a sequence of
sites plus net charge and spin multiplicity. -/
structure Molecule where
  sites : List Site
  charge : ℤ
  spin_multiplicity : ℕ
deriving DecidableEq

/-- Modelled from the spec: a molecule is ordered when every site is. -/
def Molecule.is_ordered (m : Molecule) : Bool := m.sites.all Site.is_ordered

/-- Centroid of the molecule's site coordinates. -/
def Molecule.centroid (m : Molecule) : Vec3 := vecCentroid (m.sites.map Site.coords)

/-- Modelled from the spec: a native OpenBabel atom — an atomic number and a
position. -/
structure OBAtom where
  atomicNum : ℕ
  pos : Vec3
deriving DecidableEq

/-- Modelled from the spec: the observable state of an OpenBabel `OBMol`
handle — its atoms in internal order, perception/kekulization flags, total
spin multiplicity and total charge, the `BeginModify` nesting depth, and
conformer bookkeeping (`conformersFrom` records which forcefield's conformers
the handle carries, if any). -/
structure OBMol where
  atoms : List OBAtom
  bondsPerceived : Bool
  bondOrdersPerceived : Bool
  kekulized : Bool
  totalSpin : ℕ
  totalCharge : ℤ
  modifyDepth : ℕ
  hydrogensAdded : Bool
  built3d : Bool
  conformersFrom : Option String
  numConformers : ℕ
deriving DecidableEq

/-- Modelled from the spec: a freshly constructed, empty `ob.OBMol()`. -/
def OBMol.empty : OBMol :=
  { atoms := [], bondsPerceived := false, bondOrdersPerceived := false,
    kekulized := false, totalSpin := 0, totalCharge := 0, modifyDepth := 0,
    hydrogensAdded := false, built3d := false, conformersFrom := none,
    numConformers := 0 }

/-- Modelled from the spec: `BeginModify` enters building mode. -/
def OBMol.BeginModify (m : OBMol) : OBMol := { m with modifyDepth := m.modifyDepth + 1 }

/-- Modelled from the spec: `EndModify` finalizes building mode. -/
def OBMol.EndModify (m : OBMol) : OBMol := { m with modifyDepth := m.modifyDepth - 1 }

/-- Modelled from the spec: `AddAtom` appends an atom, preserving the order
of earlier atoms. -/
def OBMol.AddAtom (m : OBMol) (a : OBAtom) : OBMol := { m with atoms := m.atoms ++ [a] }

/-- Modelled from the spec: native bond perception from positions; atoms are
untouched. -/
def OBMol.ConnectTheDots (m : OBMol) : OBMol := { m with bondsPerceived := true }

/-- Modelled from the spec: bond-order perception; atoms are untouched. -/
def OBMol.PerceiveBondOrders (m : OBMol) : OBMol := { m with bondOrdersPerceived := true }

/-- Modelled from the spec: set the handle's total spin multiplicity. -/
def OBMol.SetTotalSpinMultiplicity (m : OBMol) (n : ℕ) : OBMol := { m with totalSpin := n }

/-- Modelled from the spec: set the handle's total charge. -/
def OBMol.SetTotalCharge (m : OBMol) (c : ℤ) : OBMol := { m with totalCharge := c }

/-- Centroid of the handle's atom positions. -/
def OBMol.centroid (m : OBMol) : Vec3 := vecCentroid (m.atoms.map OBAtom.pos)

/-- Modelled from the spec: `Center` translates every atom so the centroid
moves to the origin. -/
def OBMol.Center (m : OBMol) : OBMol :=
  { m with atoms := m.atoms.map fun a => { a with pos := a.pos.sub m.centroid } }

/-- Modelled from the spec: kekulization canonicalizes aromatic bonds; atoms
are untouched. -/
def OBMol.Kekulize (m : OBMol) : OBMol := { m with kekulized := true }

/-- Modelled from the spec: `OBBuilder().Build` derives 3D coordinates from
connectivity. -/
def OBMol.Build (m : OBMol) : OBMol := { m with built3d := true }

/-- Modelled from the spec: `AddHydrogens` saturates implicit hydrogens. -/
def OBMol.AddHydrogens (m : OBMol) : OBMol := { m with hydrogensAdded := true }

/-- One native call performed by the constructor's build session. -/
inductive BuildOp where
  | beginModify
  | addAtom (atomicNum : ℕ) (pos : Vec3)
  | connectTheDots
  | perceiveBondOrders
  | setTotalSpinMultiplicity (n : ℕ)
  | setTotalCharge (c : ℤ)
  | center
  | kekulize
  | endModify
deriving DecidableEq

/-- Interpretation of a single build operation on the handle state. -/
def OBMol.applyOp (m : OBMol) : BuildOp → OBMol
  | .beginModify => m.BeginModify
  | .addAtom z p => m.AddAtom ⟨z, p⟩
  | .connectTheDots => m.ConnectTheDots
  | .perceiveBondOrders => m.PerceiveBondOrders
  | .setTotalSpinMultiplicity n => m.SetTotalSpinMultiplicity n
  | .setTotalCharge c => m.SetTotalCharge c
  | .center => m.Center
  | .kekulize => m.Kekulize
  | .endModify => m.EndModify

/-- Run a sequence of build operations in order. -/
def OBMol.runOps (m : OBMol) (ops : List BuildOp) : OBMol := ops.foldl OBMol.applyOp m

/-- The body of `BabelMolAdaptor.__init__` on a pymatgen `Molecule`
(src/pymatgen/io/babel.py lines 58-78), translated statement by statement:
create an empty handle (twice, as the source does), `BeginModify`, add one
atom per site in input order with the site's atomic number and coordinates,
`ConnectTheDots`, `PerceiveBondOrders`, `SetTotalSpinMultiplicity`,
`SetTotalCharge`, `Center`, `Kekulize`, `EndModify`. -/
def buildOBMol (mol : Molecule) : OBMol :=
  let obmol := OBMol.empty
  let obmol := OBMol.empty
  let obmol := obmol.BeginModify
  let obmol := mol.sites.foldl (fun om site => om.AddAtom ⟨site.specieZ, site.coords⟩) obmol
  let obmol := obmol.ConnectTheDots
  let obmol := obmol.PerceiveBondOrders
  let obmol := obmol.SetTotalSpinMultiplicity mol.spin_multiplicity
  let obmol := obmol.SetTotalCharge mol.charge
  let obmol := obmol.Center
  let obmol := obmol.Kekulize
  obmol.EndModify

/-- Python runtime errors surfaced by the adaptor's code paths. -/
inductive PyError where
  | valueError
  | indexError
  | stringParseError
  | attrError
deriving DecidableEq

/-- A Python value as far as the freeze-atom membership test can observe it:
an integer index, the builtin function `id`, a string, or `None`. -/
inductive PyVal where
  | int (n : ℤ)
  | builtinId
  | str (s : String)
  | pyNone
deriving DecidableEq

/-- A constructor argument: a pymatgen `Molecule`, an OpenBabel `OBMol`, or
any other Python value (the constructor type-switches on the first two and
has no fallback branch). -/
inductive MolInput where
  | pmg (m : Molecule)
  | obm (m : OBMol)
  | other (v : PyVal)

/-- The adaptor object.  `_obmol` is `none` when the attribute was never
assigned (the constructor fell through both `isinstance` branches). -/
structure BabelMolAdaptor where
  _obmol : Option OBMol
deriving DecidableEq

/-- `BabelMolAdaptor.__init__` (src lines 42-81): a pymatgen `Molecule` must
be ordered (else `ValueError`) and is converted via `buildOBMol`; an `OBMol`
is adopted directly; any other input falls through without raising and
without assigning `_obmol`. -/
def BabelMolAdaptor.init (mol : MolInput) : Except PyError BabelMolAdaptor :=
  match mol with
  | .pmg m =>
      if m.is_ordered then .ok { _obmol := some (buildOBMol m) }
      else .error .valueError
  | .obm m => .ok { _obmol := some m }
  | .other _ => .ok { _obmol := none }

/-- `pymatgen_mol`'s extraction loop (src lines 83-93): iterate the handle's
atoms in internal order, reading each atomic number and x, y, z coordinate,
and build a `Molecule` from bare species and coordinates (charge and spin
take the constructor defaults; bonding is dropped). -/
def extractMol (m : OBMol) : Molecule :=
  { sites := m.atoms.map fun a => { species := [a.atomicNum], coords := a.pos },
    charge := 0, spin_multiplicity := 1 }

/-- The `pymatgen_mol` property: fails with `AttributeError` when `_obmol`
was never assigned. -/
def BabelMolAdaptor.pymatgen_mol (a : BabelMolAdaptor) : Except PyError Molecule :=
  match a._obmol with
  | none => .error .attrError
  | some m => .ok (extractMol m)

/-- The `openbabel_mol` property (src lines 95-100): returns the stored
handle; fails with `AttributeError` when `_obmol` was never assigned. -/
def BabelMolAdaptor.openbabel_mol (a : BabelMolAdaptor) : Except PyError OBMol :=
  match a._obmol with
  | none => .error .attrError
  | some m => .ok m

/-- Modelled from the spec: a forcefield object as `confm_search` uses it —
its name, the attached constraint set (1-based atom ids), and the parameters
of the rotor search and diversity conformer generation runs it has received. -/
structure OBForceField where
  ffname : String
  constraints : List ℕ
  rotorSearchTrials : Option (ℕ × ℕ)
  divConfParams : Option (ℚ × ℕ × ℚ × Bool)
deriving DecidableEq

/-- Modelled from the spec: the recognized forcefield identifiers. -/
def knownForcefields : List String := ["gaff", "ghemical", "mmff94", "mmff94s", "uff"]

/-- Modelled from the spec: `ob.OBForceField_FindType` resolves a forcefield
by name; an unrecognized name yields a null result (which the source detects
by comparing with 0). -/
def OBForceField_FindType (name : String) : Option OBForceField :=
  if name ∈ knownForcefields then
    some { ffname := name, constraints := [], rotorSearchTrials := none,
           divConfParams := none }
  else none

/-- Modelled from the spec: `ff.GetConformers(obmol)` collects the conformers
generated by the forcefield run into the handle. -/
def OBForceField.GetConformers (ff : OBForceField) (m : OBMol) : OBMol :=
  { m with conformersFrom := some ff.ffname }

/-- The freeze-atom constraint loop exactly as written (src lines 150-157):
for each atom the loop computes `atom_id = atom.GetIndex() + 1`, but the
membership test reads `if id in freeze_atoms` — the name `id` is never
assigned in scope, so it denotes the Python builtin function `id`, which is
compared against the caller's integer indices. -/
def freezeConstraintsCode (obmol : OBMol) (freeze_atoms : List ℤ) : List ℕ :=
  (List.range obmol.atoms.length).filterMap fun idx =>
    let atom_id := idx + 1
    if PyVal.builtinId ∈ freeze_atoms.map PyVal.int then some atom_id else none

/-- Modelled from the spec: the intended freeze-atom loop — add a constraint
on an atom exactly when its 1-based native index is in `freeze_atoms`. -/
def freezeConstraintsSpec (obmol : OBMol) (freeze_atoms : List ℤ) : List ℕ :=
  (List.range obmol.atoms.length).filterMap fun idx =>
    let atom_id : ℕ := idx + 1
    if (atom_id : ℤ) ∈ freeze_atoms then some atom_id else none

/-- The arguments of `confm_search` (src lines 115-123). -/
structure ConfmArgs where
  forcefield : String
  freeze_atoms : Option (List ℤ)
  rmsd_cutoff : ℚ
  energy_cutoff : ℚ
  conf_cutoff : ℕ
  verbose : Bool
  make_3d : Bool
  add_hydrogens : Bool
deriving DecidableEq

/-- A diagnostic line printed by `confm_search`, by content rather than
formatting: the unknown-forcefield fallback notice, the freeze-count notice,
and the verbose conformer-count report. -/
inductive Msg where
  | forcefieldFallback (requested : String)
  | freezeNotice (count : ℕ)
  | conformerCount (n : ℕ)
deriving DecidableEq

/-- `confm_search` (src lines 115-171), translated statement by statement.
The result carries the updated adaptor, the printed diagnostics in order, and
the Python return value of the method — `None`, since the body has no return
statement.  Accessing `self.openbabel_mol` with `_obmol` unassigned fails as
the property does; a null forcefield at call time would also fail, matching
the source's unguarded method calls on the result of the fallback lookup. -/
def BabelMolAdaptor.confm_search (self : BabelMolAdaptor) (a : ConfmArgs) :
    Except PyError (BabelMolAdaptor × List Msg × Option BabelMolAdaptor) :=
  match self._obmol with
  | none => .error .attrError
  | some obmol0 =>
    let obmol1 := if a.make_3d then obmol0.Build else obmol0
    let obmol2 := if a.add_hydrogens then obmol1.AddHydrogens else obmol1
    let ffmsgs : Option OBForceField × List Msg :=
      match OBForceField_FindType a.forcefield with
      | some f => (some f, [])
      | none => (OBForceField_FindType "mmff94", [Msg.forcefieldFallback a.forcefield])
    match ffmsgs with
    | (none, _) => .error .attrError
    | (some ff0, msgs1) =>
      let frz : OBForceField × List Msg :=
        match a.freeze_atoms with
        | some fa =>
            if fa.isEmpty then (ff0, [])
            else ({ ff0 with constraints := freezeConstraintsCode obmol2 fa },
                  [Msg.freezeNotice fa.length])
        | none => (ff0, [])
      let ff1 := frz.1
      let ff2 := { ff1 with rotorSearchTrials := some (500, 25) }
      let cutoffs := (a.rmsd_cutoff, a.conf_cutoff, a.energy_cutoff, a.verbose)
      let ff3 := { ff2 with divConfParams := some cutoffs }
      let obmol3 := ff3.GetConformers obmol2
      let msgs3 := if a.verbose then [Msg.conformerCount obmol3.numConformers] else []
      .ok ({ _obmol := some obmol3 }, msgs1 ++ frz.2 ++ msgs3, none)

/-- `from_file` (src lines 191-204) as a function of the parse outcome:
`pb.readfile` yields a list of molecules; `mols[0]` on an empty list raises
`IndexError`, otherwise the adaptor is constructed from the first molecule's
handle. -/
def BabelMolAdaptor.from_file (mols : List OBMol) : Except PyError BabelMolAdaptor :=
  match mols with
  | [] => .error .indexError
  | m :: _ => BabelMolAdaptor.init (.obm m)

/-- `from_string` (src lines 206-220) as a function of the parse outcome:
`pb.readstring` either raises (malformed content or no molecule) or returns a
single molecule, whose handle the adaptor is constructed from. -/
def BabelMolAdaptor.from_string (parsed : Except PyError OBMol) :
    Except PyError BabelMolAdaptor :=
  match parsed with
  | .error e => .error e
  | .ok m => BabelMolAdaptor.init (.obm m)

/-- A reference into a heap of native handles, refining what a Python object
identity is for an `OBMol`. -/
abbrev ORef := ℕ

/-- A heap assigning a handle state to every reference. -/
abbrev OHeap := ORef → OBMol

/-- Overwrite the handle a reference points to. -/
def heapWrite (h : OHeap) (r : ORef) (m : OBMol) : OHeap :=
  fun q => if q = r then m else h q

/-- The adaptor at the reference level: it stores a reference to its handle,
not a handle value. -/
structure RefAdaptor where
  obmolRef : ORef
deriving DecidableEq

/-- The `openbabel_mol` property at the reference level (src lines 95-100):
`return self._obmol` hands out the stored reference itself, no copy. -/
def RefAdaptor.openbabel_mol (a : RefAdaptor) : ORef := a.obmolRef

/-- The `pymatgen_mol` property at the reference level: read the handle the
stored reference currently points to and extract a structural molecule. -/
def RefAdaptor.pymatgen_mol (a : RefAdaptor) (h : OHeap) : Molecule :=
  extractMol (h a.obmolRef)

/-- A concrete ordered two-atom molecule (H and F), deliberately not centered
at its centroid. -/
def exMolHF : Molecule :=
  { sites := [{ species := [1], coords := ⟨0, 0, 0⟩ },
              { species := [9], coords := ⟨2, 0, 0⟩ }],
    charge := 0, spin_multiplicity := 1 }

/-- A concrete molecule whose single site is disordered (two candidate
species). -/
def exMolDisordered : Molecule :=
  { sites := [{ species := [8, 9], coords := ⟨0, 0, 0⟩ }],
    charge := 0, spin_multiplicity := 1 }

/-- A concrete ordered one-atom molecule with net charge +1 and spin
multiplicity 2. -/
def exMolCation : Molecule :=
  { sites := [{ species := [8], coords := ⟨0, 0, 0⟩ }],
    charge := 1, spin_multiplicity := 2 }

/-- A concrete one-atom native handle. -/
def exOBMol1 : OBMol := { OBMol.empty with atoms := [{ atomicNum := 6, pos := Vec3.zero }] }

/-- A concrete argument record for `confm_search` with the defaults of the
source signature. -/
def exConfmArgs : ConfmArgs :=
  { forcefield := "mmff94", freeze_atoms := none, rmsd_cutoff := 1 / 2,
    energy_cutoff := 50, conf_cutoff := 100000, verbose := false,
    make_3d := false, add_hydrogens := false }

/-- The handle `confm_search` produces from `exOBMol1` under `exConfmArgs`. -/
def exConfmOut : OBMol := { exOBMol1 with conformersFrom := some "mmff94" }

theorem Vec3.sub_zero (v : Vec3) : v.sub Vec3.zero = v := by
  cases v
  simp [Vec3.sub, Vec3.zero]

theorem Vec3.sub_eq_self_iff (v c : Vec3) : v.sub c = v ↔ c = Vec3.zero := by
  cases v
  cases c
  simp [Vec3.sub, Vec3.zero, Vec3.mk.injEq, sub_eq_self]

theorem vecCentroid_nil : vecCentroid [] = Vec3.zero := by
  simp [vecCentroid, Vec3.zero]

/-- Subtracting a constant from every coordinate of a non-trivial list and
re-averaging yields the average minus the constant times one. -/
theorem sum_map_sub (l : List Vec3) (f : Vec3 → ℚ) (c : ℚ) :
    (l.map fun v => f v - c).sum = (l.map f).sum - l.length * c := by
  induction l with
  | nil => simp
  | cons v t ih =>
      simp only [List.map_cons, List.sum_cons, ih, List.length_cons]
      push_cast
      ring

theorem Vec3.eq_zero (v : Vec3) (hx : v.x = 0) (hy : v.y = 0) (hz : v.z = 0) :
    v = Vec3.zero := by
  cases v
  simp_all [Vec3.zero]

theorem vecCentroid_x (l : List Vec3) :
    (vecCentroid l).x = (l.map Vec3.x).sum / l.length := rfl

theorem vecCentroid_y (l : List Vec3) :
    (vecCentroid l).y = (l.map Vec3.y).sum / l.length := rfl

theorem vecCentroid_z (l : List Vec3) :
    (vecCentroid l).z = (l.map Vec3.z).sum / l.length := rfl

/-- Reading one component through a translation of every vector. -/
theorem vecMap_comp_sub (l : List Vec3) (c : Vec3) :
    ((l.map fun v => v.sub c).map Vec3.x = l.map fun v => v.x - c.x) ∧
    ((l.map fun v => v.sub c).map Vec3.y = l.map fun v => v.y - c.y) ∧
    ((l.map fun v => v.sub c).map Vec3.z = l.map fun v => v.z - c.z) := by
  refine ⟨?_, ?_, ?_⟩ <;>
    · rw [List.map_map]
      rfl

/-- Centering a list of coordinates puts its centroid at the origin. -/
theorem vecCentroid_center (l : List Vec3) :
    vecCentroid (l.map fun v => v.sub (vecCentroid l)) = Vec3.zero := by
  rcases l with _ | ⟨v, t⟩
  · simp [vecCentroid, Vec3.zero]
  · have hn : (((v :: t).length : ℚ)) ≠ 0 := by
      have hp : (0 : Rat) < (((v :: t).length : Rat)) := by
        exact_mod_cast Nat.succ_pos t.length
      exact ne_of_gt hp
    have h3 := vecMap_comp_sub (v :: t) (vecCentroid (v :: t))
    have e : ∀ s : ℚ,
        (s - ((v :: t).length : ℚ) * (s / ((v :: t).length : ℚ))) /
          ((v :: t).length : ℚ) = 0 := by
      intro s
      rw [mul_div_cancel₀ _ hn]
      simp
    refine Vec3.eq_zero _ ?_ ?_ ?_
    · rw [vecCentroid_x, List.length_map, h3.1, sum_map_sub, vecCentroid_x]
      exact e _
    · rw [vecCentroid_y, List.length_map, h3.2.1, sum_map_sub, vecCentroid_y]
      exact e _
    · rw [vecCentroid_z, List.length_map, h3.2.2, sum_map_sub, vecCentroid_z]
      exact e _

/-- Folding the atom-adding loop appends one native atom per site in input
order. -/
theorem foldl_AddAtom (sites : List Site) (om : OBMol) :
    sites.foldl (fun o s => o.AddAtom ⟨s.specieZ, s.coords⟩) om =
      { om with atoms := om.atoms ++ sites.map fun s => ⟨s.specieZ, s.coords⟩ } := by
  induction sites generalizing om with
  | nil => simp
  | cons s t ih =>
      rw [List.foldl_cons, ih]
      simp [OBMol.AddAtom]

/-- The handle the constructor builds, in closed form: the input's atoms in
order with centered coordinates, perception and kekulization done, spin and
charge set, and the modify session closed. -/
theorem buildOBMol_eq (m : Molecule) :
    buildOBMol m =
      { atoms := m.sites.map fun s => ⟨s.specieZ, s.coords.sub m.centroid⟩,
        bondsPerceived := true, bondOrdersPerceived := true, kekulized := true,
        totalSpin := m.spin_multiplicity, totalCharge := m.charge,
        modifyDepth := 0, hydrogensAdded := false, built3d := false,
        conformersFrom := none, numConformers := 0 } := by
  simp only [buildOBMol]
  rw [foldl_AddAtom]
  simp only [OBMol.empty, OBMol.BeginModify, OBMol.ConnectTheDots,
    OBMol.PerceiveBondOrders, OBMol.SetTotalSpinMultiplicity, OBMol.SetTotalCharge,
    OBMol.Center, OBMol.Kekulize, OBMol.EndModify, OBMol.centroid, Molecule.centroid,
    List.map_map, List.nil_append]
  rfl

/-- Translating every vector of a list by `c` returns the list unchanged
exactly when the list is empty or `c` is the origin. -/
theorem map_sub_eq_self_iff (l : List Vec3) (c : Vec3) :
    l.map (fun v => v.sub c) = l ↔ (l = [] ∨ c = Vec3.zero) := by
  induction l with
  | nil => simp
  | cons v t ih =>
      simp only [List.map_cons, List.cons.injEq, Vec3.sub_eq_self_iff, ih,
        reduceCtorEq, false_or]
      constructor
      · rintro ⟨hc, _⟩
        exact hc
      · intro hc
        exact ⟨hc, Or.inr hc⟩

/-- An ordered site's species list is exactly its single atomic number. -/
theorem Site.species_of_ordered (s : Site) (h : s.is_ordered = true) :
    s.species = [s.specieZ] := by
  rcases hs : s.species with _ | ⟨a, t⟩
  · rw [Site.is_ordered, hs] at h
    simp at h
  · rcases t with _ | ⟨b, u⟩
    · simp [Site.specieZ, hs]
    · rw [Site.is_ordered, hs] at h
      simp at h

/-- The structural molecule read back from a constructed handle, in closed
form. -/
theorem extractMol_buildOBMol (m : Molecule) :
    (extractMol (buildOBMol m)).sites =
      m.sites.map fun s =>
        { species := [s.specieZ], coords := s.coords.sub m.centroid } := by
  simp only [extractMol, buildOBMol_eq, List.map_map]
  rfl

/-- The default forcefield name always resolves. -/
theorem findType_mmff94 :
    OBForceField_FindType "mmff94" =
      some { ffname := "mmff94", constraints := [], rotorSearchTrials := none,
             divConfParams := none } := by
  rfl

/-- C2: the freeze-atom loop of `confm_search` is claimed to add a position
constraint on an atom exactly when that atom's native index is in
`freeze_atoms`.  The code instead tests the Python builtin function `id`
against the integer freeze list, so it never adds a constraint: on a one-atom
handle with `freeze_atoms = [1]` the code adds nothing while the intended
(spec-described) loop constrains atom 1. -/
theorem freeze_loop_never_matches :
    (∀ (obmol : OBMol) (fa : List ℤ), freezeConstraintsCode obmol fa = []) ∧
    freezeConstraintsCode exOBMol1 [1] = [] ∧
    freezeConstraintsSpec exOBMol1 [1] = [1] := by
  refine ⟨?_, ?_, ?_⟩
  · intro obmol fa
    simp [freezeConstraintsCode, List.mem_map]
  · decide
  · decide

/-- C3: a structural molecule with any site lacking a single definite species
is rejected at construction with the disordered-input error, and no adaptor
(hence no handle) is produced on that path. -/
theorem disordered_rejected (m : Molecule)
    (h : ∃ s ∈ m.sites, s.is_ordered = false) :
    BabelMolAdaptor.init (.pmg m) = .error .valueError ∧
    ∀ a : BabelMolAdaptor, BabelMolAdaptor.init (.pmg m) ≠ .ok a := by
  obtain ⟨s, hs, hso⟩ := h
  have hord : m.is_ordered = false := by
    simp only [Molecule.is_ordered, List.all_eq_false]
    exact ⟨s, hs, by simp [hso]⟩
  constructor
  · simp [BabelMolAdaptor.init, hord]
  · intro a
    simp [BabelMolAdaptor.init, hord]

/-- C3 witness: the concrete one-site disordered molecule is rejected. -/
theorem disordered_rejected_witness :
    BabelMolAdaptor.init (.pmg exMolDisordered) = .error .valueError ∧
    ∀ a : BabelMolAdaptor, BabelMolAdaptor.init (.pmg exMolDisordered) ≠ .ok a :=
  disordered_rejected exMolDisordered (by decide)

/-- C4: parsing that yields zero molecules makes `from_file` fail with an
index error and `from_string` propagate the parse error; with at least one
parsed molecule, the adaptor is built from the first one. -/
theorem empty_parse_rejected :
    (BabelMolAdaptor.from_file [] = .error .indexError) ∧
    (∀ (m : OBMol) (rest : List OBMol),
        BabelMolAdaptor.from_file (m :: rest) = .ok { _obmol := some m }) ∧
    (∀ e : PyError, BabelMolAdaptor.from_string (.error e) = .error e) ∧
    (∀ m : OBMol, BabelMolAdaptor.from_string (.ok m) = .ok { _obmol := some m }) :=
  ⟨rfl, fun _ _ => rfl, fun _ => rfl, fun _ => rfl⟩

/-- C7: construction propagates the input molecule's net charge and spin
multiplicity onto the native handle, which reads them back unchanged. -/
theorem charge_spin_propagated (m : Molecule) (h : m.is_ordered = true) :
    BabelMolAdaptor.init (.pmg m) = .ok { _obmol := some (buildOBMol m) } ∧
    (buildOBMol m).totalCharge = m.charge ∧
    (buildOBMol m).totalSpin = m.spin_multiplicity := by
  refine ⟨?_, ?_, ?_⟩
  · simp [BabelMolAdaptor.init, h]
  · rw [buildOBMol_eq]
  · rw [buildOBMol_eq]

/-- C7 witness: a charge +1, multiplicity 2 molecule yields a handle reading
back total charge +1 and total spin multiplicity 2. -/
theorem charge_spin_propagated_witness :
    BabelMolAdaptor.init (.pmg exMolCation) =
      .ok { _obmol := some (buildOBMol exMolCation) } ∧
    (buildOBMol exMolCation).totalCharge = 1 ∧
    (buildOBMol exMolCation).totalSpin = 2 :=
  charge_spin_propagated exMolCation (by decide)

/-- C8: `openbabel_mol` returns the very reference the adaptor stores, not a
copy, so a mutation written through the returned reference is what the
adaptor's own subsequent reads observe. -/
theorem openbabel_mol_shared_reference (a : RefAdaptor) (h : OHeap) (m : OBMol) :
    a.openbabel_mol = a.obmolRef ∧
    heapWrite h a.openbabel_mol m a.obmolRef = m ∧
    RefAdaptor.pymatgen_mol a (heapWrite h a.openbabel_mol m) = extractMol m := by
  refine ⟨rfl, ?_, ?_⟩ <;>
    simp [heapWrite, RefAdaptor.openbabel_mol, RefAdaptor.pymatgen_mol]

/-- C10: a constructor input that is neither a structural molecule nor a
native handle falls through both branches without raising, leaving the handle
attribute unassigned, so both accessors subsequently fail on the missing
attribute. -/
theorem unrecognized_input_no_handle (v : PyVal) :
    BabelMolAdaptor.init (.other v) = .ok { _obmol := none } ∧
    BabelMolAdaptor.pymatgen_mol { _obmol := none } = .error .attrError ∧
    BabelMolAdaptor.openbabel_mol { _obmol := none } = .error .attrError :=
  ⟨rfl, rfl, rfl⟩

/-- C1: constructing an adaptor from any fully ordered structural molecule
and reading the structural molecule back yields the same number of atoms with
the same species sequence, and coordinates equal to the input coordinates
translated so the centroid sits at the origin; the read-back coordinates
equal the input coordinates exactly when the input was already centered. -/
theorem roundtrip_centered (m : Molecule) (h : m.is_ordered = true) :
    ∃ a : BabelMolAdaptor, BabelMolAdaptor.init (.pmg m) = .ok a ∧
      ∃ b : Molecule, a.pymatgen_mol = .ok b ∧
        b.sites.length = m.sites.length ∧
        b.sites.map Site.species = m.sites.map Site.species ∧
        b.sites.map Site.coords = (m.sites.map fun s => s.coords.sub m.centroid) ∧
        b.centroid = Vec3.zero ∧
        (b.sites.map Site.coords = m.sites.map Site.coords ↔
          m.centroid = Vec3.zero) := by
  have hstrue : ∀ s ∈ m.sites, s.is_ordered = true := by
    rw [Molecule.is_ordered] at h
    intro s hs
    exact List.all_eq_true.mp h s hs
  refine ⟨⟨some (buildOBMol m)⟩, by simp [BabelMolAdaptor.init, h],
    extractMol (buildOBMol m), rfl, ?_, ?_, ?_, ?_, ?_⟩
  · rw [extractMol_buildOBMol]
    simp
  · rw [extractMol_buildOBMol, List.map_map]
    symm
    apply List.map_congr_left
    intro s hs
    exact Site.species_of_ordered s (hstrue s hs)
  · rw [extractMol_buildOBMol, List.map_map]
    rfl
  · show vecCentroid _ = _
    rw [extractMol_buildOBMol, List.map_map]
    have hgoal := vecCentroid_center (m.sites.map Site.coords)
    rw [List.map_map] at hgoal
    exact hgoal
  · rw [extractMol_buildOBMol, List.map_map]
    have key := map_sub_eq_self_iff (m.sites.map Site.coords) m.centroid
    rw [List.map_map] at key
    constructor
    · intro heq
      rcases key.mp heq with hnil | hc
      · have hempty : m.sites = [] := by
          simpa using hnil
        rw [Molecule.centroid, hempty]
        exact vecCentroid_nil
      · exact hc
    · intro hc
      exact key.mpr (Or.inr hc)

/-- C1 witness: the concrete off-center HF molecule round-trips to its
centered coordinates, which differ from the input's. -/
theorem roundtrip_centered_witness :
    ∃ a : BabelMolAdaptor, BabelMolAdaptor.init (.pmg exMolHF) = .ok a ∧
      ∃ b : Molecule, a.pymatgen_mol = .ok b ∧
        b.sites.length = exMolHF.sites.length ∧
        b.sites.map Site.species = exMolHF.sites.map Site.species ∧
        b.sites.map Site.coords =
          (exMolHF.sites.map fun s => s.coords.sub exMolHF.centroid) ∧
        b.centroid = Vec3.zero ∧
        (b.sites.map Site.coords = exMolHF.sites.map Site.coords ↔
          exMolHF.centroid = Vec3.zero) :=
  roundtrip_centered exMolHF (by decide)

/-- C5: on an ordered molecule the constructor performs, inside one
BeginModify/EndModify session, exactly: one native atom added per input atom
in input order with its atomic number and coordinates, bond perception,
bond-order perception, spin multiplicity, charge, centering, kekulization;
the resulting handle's atom count equals the input's with order preserved. -/
theorem construction_sequence (m : Molecule) (h : m.is_ordered = true) :
    BabelMolAdaptor.init (.pmg m) = .ok { _obmol := some (buildOBMol m) } ∧
    buildOBMol m = OBMol.runOps OBMol.empty
      (BuildOp.beginModify ::
        ((m.sites.map fun s => BuildOp.addAtom s.specieZ s.coords) ++
         [BuildOp.connectTheDots, BuildOp.perceiveBondOrders,
          BuildOp.setTotalSpinMultiplicity m.spin_multiplicity,
          BuildOp.setTotalCharge m.charge, BuildOp.center, BuildOp.kekulize,
          BuildOp.endModify])) ∧
    (buildOBMol m).atoms.length = m.sites.length ∧
    (buildOBMol m).atoms.map OBAtom.atomicNum = m.sites.map Site.specieZ := by
  refine ⟨by simp [BabelMolAdaptor.init, h], ?_, ?_, ?_⟩
  · simp only [buildOBMol, OBMol.runOps, List.foldl_cons, List.foldl_append,
      List.foldl_map, List.foldl_nil, OBMol.applyOp]
  · rw [buildOBMol_eq]
    simp
  · rw [buildOBMol_eq, List.map_map]
    rfl

/-- C5 witness: the construction trace and atom-order preservation at the
concrete HF molecule. -/
theorem construction_sequence_witness :
    BabelMolAdaptor.init (.pmg exMolHF) = .ok { _obmol := some (buildOBMol exMolHF) } ∧
    buildOBMol exMolHF = OBMol.runOps OBMol.empty
      (BuildOp.beginModify ::
        ((exMolHF.sites.map fun s => BuildOp.addAtom s.specieZ s.coords) ++
         [BuildOp.connectTheDots, BuildOp.perceiveBondOrders,
          BuildOp.setTotalSpinMultiplicity exMolHF.spin_multiplicity,
          BuildOp.setTotalCharge exMolHF.charge, BuildOp.center, BuildOp.kekulize,
          BuildOp.endModify])) ∧
    (buildOBMol exMolHF).atoms.length = exMolHF.sites.length ∧
    (buildOBMol exMolHF).atoms.map OBAtom.atomicNum = exMolHF.sites.map Site.specieZ :=
  construction_sequence exMolHF (by decide)

/-- C6: when the requested forcefield name fails to resolve, `confm_search`
does not raise: it emits the fallback diagnostic, substitutes the default
"mmff94" forcefield, and runs the search to completion, returning a handle
carrying mmff94-generated conformers. -/
theorem forcefield_fallback (self : BabelMolAdaptor) (mh : OBMol) (a : ConfmArgs)
    (hm : self._obmol = some mh)
    (hff : OBForceField_FindType a.forcefield = none) :
    ∃ res msgs, self.confm_search a = .ok (res, msgs, none) ∧
      Msg.forcefieldFallback a.forcefield ∈ msgs ∧
      ∃ m2, res._obmol = some m2 ∧ m2.conformersFrom = some "mmff94" := by
  rcases hfa : a.freeze_atoms with _ | fa
  · simp only [BabelMolAdaptor.confm_search, hm, hff, findType_mmff94, hfa]
    exact ⟨_, _, rfl, by simp, _, rfl, rfl⟩
  · rcases fa with _ | ⟨i, is⟩
    · simp only [BabelMolAdaptor.confm_search, hm, hff, findType_mmff94, hfa,
        List.isEmpty_nil, if_true]
      exact ⟨_, _, rfl, by simp, _, rfl, rfl⟩
    · simp only [BabelMolAdaptor.confm_search, hm, hff, findType_mmff94, hfa,
        List.isEmpty_cons, if_false]
      exact ⟨_, _, rfl, by simp, _, rfl, rfl⟩

/-- C6 witness: a concrete call with the unrecognized name "nosuchff"
completes with the fallback. -/
theorem forcefield_fallback_witness :
    ∃ res msgs,
      BabelMolAdaptor.confm_search ⟨some exOBMol1⟩
          { exConfmArgs with forcefield := "nosuchff" } = .ok (res, msgs, none) ∧
      Msg.forcefieldFallback "nosuchff" ∈ msgs ∧
      ∃ m2, res._obmol = some m2 ∧ m2.conformersFrom = some "mmff94" :=
  forcefield_fallback ⟨some exOBMol1⟩ exOBMol1
    { exConfmArgs with forcefield := "nosuchff" } rfl (by decide)

/-- C9: every completed `confm_search` call returns `None` and its effect on
the adaptor is to store the handle that now carries the generated
conformers. -/
theorem confm_search_returns_none (self : BabelMolAdaptor) (a : ConfmArgs)
    (res : BabelMolAdaptor) (msgs : List Msg) (ret : Option BabelMolAdaptor)
    (h : self.confm_search a = .ok (res, msgs, ret)) :
    ret = none ∧
    ∃ m2, res._obmol = some m2 ∧ m2.conformersFrom.isSome = true := by
  rcases hobm : self._obmol with _ | m0
  · rw [BabelMolAdaptor.confm_search, hobm] at h
    cases h
  · rcases hft : OBForceField_FindType a.forcefield with _ | f
    · rw [BabelMolAdaptor.confm_search, hobm] at h
      simp only [hft, findType_mmff94] at h
      obtain ⟨h1, _, h3⟩ := by
        simpa only [Except.ok.injEq, Prod.mk.injEq] using h
      refine ⟨h3.symm, ?_⟩
      rw [← h1]
      exact ⟨_, rfl, rfl⟩
    · rw [BabelMolAdaptor.confm_search, hobm] at h
      simp only [hft] at h
      obtain ⟨h1, _, h3⟩ := by
        simpa only [Except.ok.injEq, Prod.mk.injEq] using h
      refine ⟨h3.symm, ?_⟩
      rw [← h1]
      exact ⟨_, rfl, rfl⟩

/-- C9 witness: the concrete default call returns `None` and stores the
conformer-carrying handle. -/
theorem confm_search_returns_none_witness :
    (none : Option BabelMolAdaptor) = none ∧
    ∃ m2, (BabelMolAdaptor.mk (some exConfmOut))._obmol = some m2 ∧
      m2.conformersFrom.isSome = true :=
  confm_search_returns_none ⟨some exOBMol1⟩ exConfmArgs
    ⟨some exConfmOut⟩ [] none rfl
